import Mathlib

/-!
Shallow embedding of the chat backend in `src/index.js`: an Express + Socket.IO
server with two Mongoose models (Conversation, Message), four REST handlers and
a socket layer (room join, `newMessage` fanout, WebRTC signaling relay).

Modelling conventions:
* The MongoDB collections are append-only Lean lists in insertion order;
  `findOne`/`find` traverse them front to back (Mongo natural order for an
  insert-only collection).
* `Date.now` timestamps and mongoose-assigned document ids are explicit `Nat`
  parameters of the operations that consume them (`now`, `newId`); uuidv4 is an
  explicit `freshId : String` parameter.
* A storage call that may reject is modelled by a `Bool` flag (`findFails`,
  `saveFails`) selecting the rejected branch; a rejected `await` outside any
  `try` block is the `uncaught` outcome (Express 4 sends no response there).
* Socket.IO room state is the list of (room name, socket id) membership pairs;
  a connecting socket automatically joins the room named by its own id,
  `io.to(room).emit` delivers to every member of `room`, and
  `socket.to(room).emit` delivers to every member of `room` except the sender.
-/

namespace Chat

/-- Conversation document (`conversationSchema`, src/index.js lines 21-24):
an array of participant usernames and a `conversationId` string. -/
structure Conversation where
  participants : List String
  conversationId : String
deriving Repr, DecidableEq

/-- Message document (`messageSchema`, src/index.js lines 28-35): exactly the
contract fields `conversationId`, `senderUsername`, `receiverUsername`,
`message`, `whosend`, `timestamp`, plus `id` for the mongoose-assigned `_id`. -/
structure Message where
  id : Nat
  conversationId : String
  senderUsername : String
  receiverUsername : String
  message : String
  whosend : String
  timestamp : Nat
deriving Repr, DecidableEq

/-- `Conversation.findOne({ participants: { $all: [a, b] } })` (lines 53-55):
the first stored conversation whose participants contain both usernames. -/
def convFindOne (store : List Conversation) (a b : String) : Option Conversation :=
  store.find? (fun c => decide (a ∈ c.participants ∧ b ∈ c.participants))

/-- Outcome of the POST /api/conversations handler: an HTTP response with a
status and the `conversationId` of the JSON body (`none` for error bodies), or
an uncaught promise rejection (no response is ever sent). -/
inductive ConvResult where
  | response (status : Nat) (conversationId : Option String)
  | uncaught
deriving Repr, DecidableEq

/-- POST /api/conversations (lines 45-75). Falsy required fields are modelled
as `""`. The `findOne` await is outside any try/catch, so `findFails = true`
yields `uncaught`; only `conversation.save()` is guarded, so `saveFails = true`
yields the 500 response. Returns the outcome and the resulting store. -/
def createConversation (store : List Conversation) (sender receiver freshId : String)
    (findFails saveFails : Bool) : ConvResult × List Conversation :=
  if sender = "" ∨ receiver = "" then
    (.response 400 none, store)
  else if findFails then
    (.uncaught, store)
  else
    match convFindOne store sender receiver with
    | some c => (.response 200 (some c.conversationId), store)
    | none =>
      if saveFails then
        (.response 500 none, store)
      else
        (.response 200 (some freshId), store ++ [⟨[sender, receiver], freshId⟩])

/-- The `$all` membership test is symmetric in the two usernames. -/
theorem convFindOne_comm (store : List Conversation) (a b : String) :
    convFindOne store a b = convFindOne store b a := by
  unfold convFindOne
  induction store with
  | nil => rfl
  | cons c rest ih =>
    simp only [List.find?_cons]
    rw [decide_eq_decide.mpr (and_comm (a := a ∈ c.participants) (b := b ∈ c.participants))]
    cases h : decide (b ∈ c.participants ∧ a ∈ c.participants) with
    | false => simp only [h]; exact ih
    | true => simp only [h]

/-- Claim C1: for non-empty usernames, create-or-get is order-insensitive and
idempotent: after one `resolve(a,b)` call, a later call for the pair in either
order returns the same conversationId and leaves the store unchanged (no new
Conversation record). -/
theorem resolve_orderInsensitive_idempotent (store : List Conversation)
    (a b id1 id2 : String) (ha : a ≠ "") (hb : b ≠ "") :
    ∃ rid store1,
      createConversation store a b id1 false false = (.response 200 (some rid), store1) ∧
      createConversation store1 b a id2 false false = (.response 200 (some rid), store1) ∧
      createConversation store1 a b id2 false false = (.response 200 (some rid), store1) := by
  unfold createConversation
  simp only [ha, hb, or_self, if_false, false_or, or_false, if_neg, Bool.false_eq_true,
    ite_false]
  rcases hfind : convFindOne store a b with _ | c
  · refine ⟨id1, store ++ [⟨[a, b], id1⟩], ?_⟩
    have hsymm : convFindOne store b a = none := by rw [← convFindOne_comm]; exact hfind
    have hnew1 : convFindOne (store ++ [⟨[a, b], id1⟩]) a b =
        some ⟨[a, b], id1⟩ := by
      unfold convFindOne at hfind ⊢
      rw [List.find?_append, hfind]
      simp
    have hnew2 : convFindOne (store ++ [⟨[a, b], id1⟩]) b a =
        some ⟨[a, b], id1⟩ := by
      rw [← convFindOne_comm]; exact hnew1
    simp [hfind, hnew1, hnew2, ha, hb]
  · refine ⟨c.conversationId, store, ?_⟩
    have hsymm : convFindOne store b a = some c := by rw [← convFindOne_comm]; exact hfind
    simp [hfind, hsymm, ha, hb]

/-- Witness for C1: concrete run on the empty store with usernames "alice" and
"bob" and distinct fresh ids. -/
theorem resolve_orderInsensitive_idempotent_witness :
    ∃ rid store1,
      createConversation [] "alice" "bob" "X" false false = (.response 200 (some rid), store1) ∧
      createConversation store1 "bob" "alice" "Y" false false = (.response 200 (some rid), store1) ∧
      createConversation store1 "alice" "bob" "Y" false false = (.response 200 (some rid), store1) :=
  resolve_orderInsensitive_idempotent [] "alice" "bob" "X" "Y" (by decide) (by decide)

/-- Claim C6, counterexample: a storage failure during the existence lookup
(`findOne` rejects, lines 53-55) is NOT surfaced as a 500 response — the await
sits outside the try/catch, so the rejection escapes the handler uncaught and
no response is sent at all. -/
theorem createConversation_findFailure_not500 :
    (createConversation [] "a" "b" "X" true false).1 = ConvResult.uncaught ∧
    (createConversation [] "a" "b" "X" true false).1 ≠ ConvResult.response 500 none := by
  constructor
  · rfl
  · decide

/-- Claim C6, amended: only a storage failure during creation (`save`, lines
65-70) is surfaced as the 500 response, with the store unchanged (the caller
must not assume the conversation was created); a failure during the existence
lookup escapes the handler as an uncaught rejection with no response sent and
the store unchanged. -/
theorem createConversation_storageFailure (store : List Conversation)
    (a b freshId : String) (sf : Bool) (ha : a ≠ "") (hb : b ≠ "") :
    (convFindOne store a b = none →
      createConversation store a b freshId false true = (.response 500 none, store)) ∧
    createConversation store a b freshId true sf = (.uncaught, store) := by
  constructor
  · intro hnone
    unfold createConversation
    simp [ha, hb, hnone]
  · unfold createConversation
    simp [ha, hb]

/-- Witness for the amended C6 at a concrete input: empty store, usernames
"a"/"b", both failure modes exercised. -/
theorem createConversation_storageFailure_witness :
    (convFindOne [] "a" "b" = none →
      createConversation [] "a" "b" "X" false true = (.response 500 none, [])) ∧
    createConversation [] "a" "b" "X" true false = (.uncaught, []) :=
  createConversation_storageFailure [] "a" "b" "X" false (by decide) (by decide)

/-- Pending state of one in-flight POST /api/conversations request in the
event loop: its two request fields and fresh uuid, the result of its `findOne`
await once that step has run, and its final conversationId once it responded. -/
structure PendingResolve where
  sender : String
  receiver : String
  freshId : String
  found : Option (Option Conversation)
  result : Option String
deriving Repr, DecidableEq

/-- One event-loop step of a pending create-or-get request (no storage
failures): first the `findOne` read of the current store completes, then the
continuation runs — returning the found conversation's id, or saving a new
record (plain check-then-insert; the only unique index is on `conversationId`,
line 23, so the insert succeeds regardless of other records' participants). -/
def stepResolve (store : List Conversation) (t : PendingResolve) :
    List Conversation × PendingResolve :=
  match t.found with
  | none => (store, { t with found := some (convFindOne store t.sender t.receiver) })
  | some fr =>
    match t.result with
    | some _ => (store, t)
    | none =>
      match fr with
      | some c => (store, { t with result := some c.conversationId })
      | none => (store ++ [⟨[t.sender, t.receiver], t.freshId⟩],
                 { t with result := some t.freshId })

/-- Interleaved execution of two concurrent create-or-get requests under a
schedule: `true` steps the first request, `false` the second (single-threaded
cooperative dispatch, each await is a yield point). -/
def runResolvePair (t1 t2 : PendingResolve) (sched : List Bool)
    (store : List Conversation) : List Conversation × PendingResolve × PendingResolve :=
  match sched with
  | [] => (store, t1, t2)
  | i :: rest =>
    if i then
      let (store1, t1a) := stepResolve store t1
      runResolvePair t1a t2 rest store1
    else
      let (store1, t2a) := stepResolve store t2
      runResolvePair t1 t2a rest store1

/-- Claim C2: the code's plain check-then-insert has no pair-uniqueness
safeguard: two concurrent first-contact requests for the unordered pair
{alice, bob} (one per direction) whose `findOne` awaits both complete before
either `save`, persist TWO Conversation records for the pair and answer with
two different conversationIds — the at-most-one invariant is violated; a
serial schedule of the same two requests persists exactly one. -/
theorem checkThenInsert_duplicateConversations :
    (((runResolvePair ⟨"alice", "bob", "X", none, none⟩ ⟨"bob", "alice", "Y", none, none⟩
        [true, false, true, false] []).1.filter
        (fun c => decide ("alice" ∈ c.participants ∧ "bob" ∈ c.participants))).length = 2 ∧
      (runResolvePair ⟨"alice", "bob", "X", none, none⟩ ⟨"bob", "alice", "Y", none, none⟩
        [true, false, true, false] []).2.1.result = some "X" ∧
      (runResolvePair ⟨"alice", "bob", "X", none, none⟩ ⟨"bob", "alice", "Y", none, none⟩
        [true, false, true, false] []).2.2.result = some "Y") ∧
    (((runResolvePair ⟨"alice", "bob", "X", none, none⟩ ⟨"bob", "alice", "Y", none, none⟩
        [true, true, false, false] []).1.filter
        (fun c => decide ("alice" ∈ c.participants ∧ "bob" ∈ c.participants))).length = 1 ∧
      (runResolvePair ⟨"alice", "bob", "X", none, none⟩ ⟨"bob", "alice", "Y", none, none⟩
        [true, true, false, false] []).2.2.result = some "X") := by
  decide

/-- Socket.IO room state: the membership pairs (room name, socket id).
Room names and socket ids share one namespace, as in Socket.IO. -/
structure SocketState where
  rooms : List (String × String)
deriving Repr, DecidableEq

/-- A socket connecting (io.on('connection'), line 141): per Socket.IO
semantics the new socket is automatically a member of the room named by its
own socket id. -/
def SocketState.connect (st : SocketState) (sid : String) : SocketState :=
  ⟨st.rooms ++ [(sid, sid)]⟩

/-- socket.on('joinConversation') (lines 145-148): `socket.join(cid)`. Room
membership is a set — joining a room already joined is a no-op. -/
def SocketState.joinConversation (st : SocketState) (sid cid : String) : SocketState :=
  if (cid, sid) ∈ st.rooms then st else ⟨st.rooms ++ [(cid, sid)]⟩

/-- The socket ids currently joined to a room. -/
def roomMembers (st : SocketState) (room : String) : List String :=
  (st.rooms.filter (fun m => decide (m.1 = room))).map (fun m => m.2)

/-- Payload of an inbound `offer` (lines 151-154): routed by its `receiverId`
field; `sdp` stands for the rest of the payload, passed through opaquely. -/
structure OfferData where
  receiverId : String
  sdp : String
deriving Repr, DecidableEq

/-- Payload of an inbound `answer` (lines 157-160): routed by its `callerId`
field; `sdp` stands for the rest of the payload, passed through opaquely. -/
structure AnswerData where
  callerId : String
  sdp : String
deriving Repr, DecidableEq

/-- Payload of an inbound `ice-candidate` (lines 163-166): routed by its
`targetId` field; `candidate` stands for the rest of the payload. -/
structure IceData where
  targetId : String
  candidate : String
deriving Repr, DecidableEq

/-- `socket.to(room).emit(ev, d)` issued by socket `sender`: one delivery
(socket id, event name, payload) to every member of `room` EXCEPT the sender
itself. -/
def socketToEmit {α : Type} (st : SocketState) (sender room ev : String) (d : α) :
    List (String × String × α) :=
  (st.rooms.filter (fun m => decide (m.1 = room ∧ m.2 ≠ sender))).map
    (fun m => (m.2, ev, d))

/-- socket.on('offer') handler (lines 151-154):
`socket.to(data.receiverId).emit('offer', data)`. -/
def relayOffer (st : SocketState) (sender : String) (d : OfferData) :
    List (String × String × OfferData) :=
  socketToEmit st sender d.receiverId "offer" d

/-- socket.on('answer') handler (lines 157-160):
`socket.to(data.callerId).emit('answer', data)`. -/
def relayAnswer (st : SocketState) (sender : String) (d : AnswerData) :
    List (String × String × AnswerData) :=
  socketToEmit st sender d.callerId "answer" d

/-- socket.on('ice-candidate') handler (lines 163-166):
`socket.to(data.targetId).emit('ice-candidate', data)`. -/
def relayIce (st : SocketState) (sender : String) (d : IceData) :
    List (String × String × IceData) :=
  socketToEmit st sender d.targetId "ice-candidate" d

/-- Claim C4, counterexample: a connected socket "s" relays an offer whose
receiverId addresses "s" itself; the connection matching the target address
exists, yet nothing is delivered to it — `socket.to` excludes the sender, so
the claimed unconditional forwarding to the addressed connection fails. -/
theorem relayOffer_selfTarget_noDelivery :
    ("s", "s") ∈ (SocketState.connect ⟨[]⟩ "s").rooms ∧
    relayOffer (SocketState.connect ⟨[]⟩ "s") "s" ⟨"s", "sdp"⟩ = [] := by
  decide

/-- Helper: complete description of the deliveries of a `socket.to` emit. -/
theorem socketToEmit_spec {α : Type} (st : SocketState) (sender room ev : String) (d : α) :
    (∀ e ∈ socketToEmit st sender room ev d,
      e.2.1 = ev ∧ e.2.2 = d ∧ e.1 ≠ sender ∧ (room, e.1) ∈ st.rooms) ∧
    (∀ sid, (room, sid) ∈ st.rooms → sid ≠ sender →
      (sid, ev, d) ∈ socketToEmit st sender room ev d) := by
  constructor
  · intro e he
    unfold socketToEmit at he
    rcases List.mem_map.mp he with ⟨m, hm, hme⟩
    rcases List.mem_filter.mp hm with ⟨hmem, hcond⟩
    rcases of_decide_eq_true hcond with ⟨h1, h2⟩
    subst hme
    refine ⟨rfl, rfl, h2, ?_⟩
    have : m = (room, m.2) := by
      cases m; simp_all
    rw [← this]; exact hmem
  · intro sid hmem hne
    unfold socketToEmit
    refine List.mem_map.mpr ⟨(room, sid), List.mem_filter.mpr ⟨hmem, ?_⟩, rfl⟩
    exact decide_eq_true ⟨rfl, hne⟩

/-- Claim C4, amended: each signaling relay re-emits the payload unchanged,
under the same event name, to every connection in the room named by the
payload's target-address field other than the sending connection itself — in
particular to the addressed connection whenever it is a connection different
from the sender — and when no such connection exists (unknown target, or a
target room whose only member is the sender) the relay is a silent no-op: no
error is surfaced and no connection receives anything. -/
theorem relay_forwards_to_target (st : SocketState) (sender : String)
    (o : OfferData) (a : AnswerData) (i : IceData) :
    ((∀ e ∈ relayOffer st sender o,
        e.2.1 = "offer" ∧ e.2.2 = o ∧ e.1 ≠ sender ∧ (o.receiverId, e.1) ∈ st.rooms) ∧
      (∀ sid, (o.receiverId, sid) ∈ st.rooms → sid ≠ sender →
        (sid, "offer", o) ∈ relayOffer st sender o) ∧
      ((∀ sid, (o.receiverId, sid) ∈ st.rooms → sid = sender) →
        relayOffer st sender o = [])) ∧
    ((∀ e ∈ relayAnswer st sender a,
        e.2.1 = "answer" ∧ e.2.2 = a ∧ e.1 ≠ sender ∧ (a.callerId, e.1) ∈ st.rooms) ∧
      (∀ sid, (a.callerId, sid) ∈ st.rooms → sid ≠ sender →
        (sid, "answer", a) ∈ relayAnswer st sender a) ∧
      ((∀ sid, (a.callerId, sid) ∈ st.rooms → sid = sender) →
        relayAnswer st sender a = [])) ∧
    ((∀ e ∈ relayIce st sender i,
        e.2.1 = "ice-candidate" ∧ e.2.2 = i ∧ e.1 ≠ sender ∧ (i.targetId, e.1) ∈ st.rooms) ∧
      (∀ sid, (i.targetId, sid) ∈ st.rooms → sid ≠ sender →
        (sid, "ice-candidate", i) ∈ relayIce st sender i) ∧
      ((∀ sid, (i.targetId, sid) ∈ st.rooms → sid = sender) →
        relayIce st sender i = [])) := by
  refine ⟨⟨(socketToEmit_spec st sender o.receiverId "offer" o).1,
           (socketToEmit_spec st sender o.receiverId "offer" o).2, ?_⟩,
          ⟨(socketToEmit_spec st sender a.callerId "answer" a).1,
           (socketToEmit_spec st sender a.callerId "answer" a).2, ?_⟩,
          ⟨(socketToEmit_spec st sender i.targetId "ice-candidate" i).1,
           (socketToEmit_spec st sender i.targetId "ice-candidate" i).2, ?_⟩⟩ <;>
  · intro hall
    rw [List.eq_nil_iff_forall_not_mem]
    intro e he
    rcases (socketToEmit_spec st sender _ _ _).1 e he with ⟨_, _, hne, hmem⟩
    exact hne (hall e.1 hmem)

/-- Claim C10: no signaling relay ever delivers to the connection that sent
it; in particular a payload whose target address equals the sender's own
socket id (or any room containing the sender) yields no delivery to the
sender. -/
theorem relay_never_echoes_sender (st : SocketState) (sender : String)
    (o : OfferData) (a : AnswerData) (i : IceData) :
    (∀ e ∈ relayOffer st sender o, e.1 ≠ sender) ∧
    (∀ e ∈ relayAnswer st sender a, e.1 ≠ sender) ∧
    (∀ e ∈ relayIce st sender i, e.1 ≠ sender) :=
  ⟨fun e he => ((socketToEmit_spec st sender o.receiverId "offer" o).1 e he).2.2.1,
   fun e he => ((socketToEmit_spec st sender a.callerId "answer" a).1 e he).2.2.1,
   fun e he => ((socketToEmit_spec st sender i.targetId "ice-candidate" i).1 e he).2.2.1⟩

/-- HTTP outcome of the POST /api/messages handler: status and, on success,
the stored message echoed as the JSON body. -/
inductive MsgResult where
  | response (status : Nat) (stored : Option Message)
deriving Repr, DecidableEq

/-- Full outcome of POST /api/messages: the HTTP result, the message store
after the call, and the socket deliveries (socket id, event name, payload)
performed by the handler. -/
structure SendOutcome where
  result : MsgResult
  store : List Message
  emits : List (String × String × Message)
deriving Repr, DecidableEq

/-- POST /api/messages (lines 119-138). Falsy required fields are modelled as
`""`. On valid input the handler builds the message with `whosend` set to the
sender's username and the timestamp defaulting to the insertion-time clock
(`now`), saves it, and — only after a successful save — emits it to every
member of the room named by its conversationId via
`io.to(conversationId).emit('newMessage', newMessage)` (no sender exclusion:
`io.to`, not `socket.to`). A save failure is caught and answered with 500,
nothing stored, nothing emitted. -/
def sendMessage (sock : SocketState) (store : List Message)
    (conversationId senderUsername receiverUsername message : String)
    (newId now : Nat) (saveFails : Bool) : SendOutcome :=
  if conversationId = "" ∨ senderUsername = "" ∨ receiverUsername = "" ∨ message = "" then
    ⟨.response 400 none, store, []⟩
  else if saveFails then
    ⟨.response 500 none, store, []⟩
  else
    let m : Message :=
      ⟨newId, conversationId, senderUsername, receiverUsername, message, senderUsername, now⟩
    ⟨.response 200 (some m), store ++ [m],
      (roomMembers sock conversationId).map (fun sid => (sid, "newMessage", m))⟩

/-- Claim C3: whenever a message is successfully persisted, the handler emits
a `newMessage` event carrying the full stored Message to every connection
currently joined to the room named by its conversationId — each room member
(the sender's own connection included, if joined) receives it, and nothing is
delivered to any socket outside the room or under another event name. -/
theorem sendMessage_broadcasts_to_room (sock : SocketState) (store : List Message)
    (cid s r body : String) (newId now : Nat)
    (hc : cid ≠ "") (hs : s ≠ "") (hr : r ≠ "") (hb : body ≠ "") :
    ∃ m : Message,
      (sendMessage sock store cid s r body newId now false).result =
        .response 200 (some m) ∧
      (sendMessage sock store cid s r body newId now false).store = store ++ [m] ∧
      (∀ sid, (cid, sid) ∈ sock.rooms →
        (sid, "newMessage", m) ∈ (sendMessage sock store cid s r body newId now false).emits) ∧
      (∀ e ∈ (sendMessage sock store cid s r body newId now false).emits,
        (cid, e.1) ∈ sock.rooms ∧ e.2.1 = "newMessage" ∧ e.2.2 = m) := by
  refine ⟨⟨newId, cid, s, r, body, s, now⟩, ?_, ?_, ?_, ?_⟩ <;>
    simp only [sendMessage, hc, hs, hr, hb, or_self, or_false, false_or, if_neg,
      Bool.false_eq_true, ite_false, not_false_eq_true]
  · intro sid hmem
    refine List.mem_map.mpr ⟨sid, ?_, rfl⟩
    unfold roomMembers
    exact List.mem_map.mpr ⟨(cid, sid),
      List.mem_filter.mpr ⟨hmem, decide_eq_true rfl⟩, rfl⟩
  · intro e he
    rcases List.mem_map.mp he with ⟨sid, hsid, hesid⟩
    subst hesid
    unfold roomMembers at hsid
    rcases List.mem_map.mp hsid with ⟨mpair, hmp, hmpe⟩
    rcases List.mem_filter.mp hmp with ⟨hmem, hcond⟩
    have hroom : mpair.1 = cid := of_decide_eq_true hcond
    refine ⟨?_, rfl, rfl⟩
    have : mpair = (cid, mpair.2) := by cases mpair; simp_all
    rw [hmpe] at this
    rw [← this]; exact hmem

/-- Witness for C3: a concrete room with two members — the sender's own socket
"s1" and "s2" — both of which receive the stored message. -/
theorem sendMessage_broadcasts_to_room_witness :
    ∃ m : Message,
      (sendMessage ⟨[("c", "s1"), ("c", "s2")]⟩ [] "c" "alice" "bob" "hi" 0 5 false).result =
        .response 200 (some m) ∧
      (sendMessage ⟨[("c", "s1"), ("c", "s2")]⟩ [] "c" "alice" "bob" "hi" 0 5 false).store =
        [] ++ [m] ∧
      (∀ sid, ("c", sid) ∈ [("c", "s1"), ("c", "s2")] →
        (sid, "newMessage", m) ∈
          (sendMessage ⟨[("c", "s1"), ("c", "s2")]⟩ [] "c" "alice" "bob" "hi" 0 5 false).emits) ∧
      (∀ e ∈ (sendMessage ⟨[("c", "s1"), ("c", "s2")]⟩ [] "c" "alice" "bob" "hi" 0 5 false).emits,
        ("c", e.1) ∈ [("c", "s1"), ("c", "s2")] ∧ e.2.1 = "newMessage" ∧ e.2.2 = m) :=
  sendMessage_broadcasts_to_room ⟨[("c", "s1"), ("c", "s2")]⟩ [] "c" "alice" "bob" "hi" 0 5
    (by decide) (by decide) (by decide) (by decide)

/-- Claim C7: if persisting the message fails, the handler catches the
rejection and responds 500, the store is unchanged, and no `newMessage` event
is emitted to anyone (the broadcast only runs after a successful save). -/
theorem sendMessage_saveFailure_no_emit (sock : SocketState) (store : List Message)
    (cid s r body : String) (newId now : Nat)
    (hc : cid ≠ "") (hs : s ≠ "") (hr : r ≠ "") (hb : body ≠ "") :
    sendMessage sock store cid s r body newId now true =
      ⟨.response 500 none, store, []⟩ := by
  simp [sendMessage, hc, hs, hr, hb]

/-- Witness for C7 at a concrete input: a failing save answers 500 with no
store change and no emits, even with a populated room. -/
theorem sendMessage_saveFailure_no_emit_witness :
    sendMessage ⟨[("c", "s1")]⟩ [] "c" "alice" "bob" "hi" 0 5 true =
      ⟨.response 500 none, [], []⟩ :=
  sendMessage_saveFailure_no_emit ⟨[("c", "s1")]⟩ [] "c" "alice" "bob" "hi" 0 5
    (by decide) (by decide) (by decide) (by decide)

/-- Claim C8: a successful send stores and returns a Message whose fields are
exactly the four request fields plus `whosend` equal to the sender's username,
the insertion-time timestamp, and the assigned id; the response body is the
stored record itself (the new last element of the store). -/
theorem sendMessage_stored_shape (sock : SocketState) (store : List Message)
    (cid s r body : String) (newId now : Nat)
    (hc : cid ≠ "") (hs : s ≠ "") (hr : r ≠ "") (hb : body ≠ "") :
    ∃ m : Message,
      (sendMessage sock store cid s r body newId now false).result =
        .response 200 (some m) ∧
      m.conversationId = cid ∧ m.senderUsername = s ∧ m.receiverUsername = r ∧
      m.message = body ∧ m.whosend = s ∧ m.timestamp = now ∧ m.id = newId ∧
      (sendMessage sock store cid s r body newId now false).store = store ++ [m] := by
  refine ⟨⟨newId, cid, s, r, body, s, now⟩, ?_, rfl, rfl, rfl, rfl, rfl, rfl, rfl, ?_⟩ <;>
    simp [sendMessage, hc, hs, hr, hb]

/-- Witness for C8 at a concrete input. -/
theorem sendMessage_stored_shape_witness :
    ∃ m : Message,
      (sendMessage ⟨[]⟩ [] "c" "alice" "bob" "hi" 3 7 false).result =
        .response 200 (some m) ∧
      m.conversationId = "c" ∧ m.senderUsername = "alice" ∧ m.receiverUsername = "bob" ∧
      m.message = "hi" ∧ m.whosend = "alice" ∧ m.timestamp = 7 ∧ m.id = 3 ∧
      (sendMessage ⟨[]⟩ [] "c" "alice" "bob" "hi" 3 7 false).store = [] ++ [m] :=
  sendMessage_stored_shape ⟨[]⟩ [] "c" "alice" "bob" "hi" 3 7
    (by decide) (by decide) (by decide) (by decide)

/-- `Message.find({ conversationId })` (line 81): the stored messages of that
conversation in store (insertion) order. -/
def listByConversation (store : List Message) (cid : String) : List Message :=
  store.filter (fun m => decide (m.conversationId = cid))

/-- HTTP outcome of GET /api/messages/conversation/:conversationId: status
and, on success, the message list as the JSON body. -/
inductive ListMsgResult where
  | response (status : Nat) (messages : Option (List Message))
deriving Repr, DecidableEq

/-- GET /api/messages/conversation/:conversationId (lines 78-86): the whole
body is inside try/catch, so a storage failure answers 500; otherwise the
matching messages are returned as-is (no explicit sort — Mongo natural order,
i.e. insertion order of the append-only store). -/
def getConversationMessages (store : List Message) (cid : String)
    (findFails : Bool) : ListMsgResult :=
  if findFails then .response 500 none
  else .response 200 (some (listByConversation store cid))

/-- Claim C5: on a store whose timestamps are nondecreasing in insertion order
(timestamps default to the insertion-time clock, line 34), the query answers
200 with exactly the messages of the requested conversation, in creation
timestamp order; for a conversationId with no messages (or one that never
existed) it answers 200 with the empty list — never an error. -/
theorem listByConversation_ordered_or_empty (store : List Message) (cid : String)
    (hsorted : store.Pairwise (fun m1 m2 => m1.timestamp ≤ m2.timestamp)) :
    ∃ l, getConversationMessages store cid false = .response 200 (some l) ∧
      l.Pairwise (fun m1 m2 => m1.timestamp ≤ m2.timestamp) ∧
      (∀ m ∈ l, m.conversationId = cid) ∧
      (∀ m ∈ store, m.conversationId = cid → m ∈ l) ∧
      l.Sublist store ∧
      ((∀ m ∈ store, m.conversationId ≠ cid) → l = []) := by
  refine ⟨listByConversation store cid, rfl,
    List.Pairwise.sublist (List.filter_sublist store) hsorted, ?_, ?_,
    List.filter_sublist store, ?_⟩
  · intro m hm
    exact of_decide_eq_true (List.mem_filter.mp hm).2
  · intro m hm hcid
    exact List.mem_filter.mpr ⟨hm, decide_eq_true hcid⟩
  · intro hnone
    exact List.filter_eq_nil_iff.mpr fun m hm => by
      simpa using hnone m hm

/-- Witness for C5: a concrete sorted two-message store; the query for the
present conversation returns both messages in order, and implicitly the
unknown-conversation branch holds as well. -/
theorem listByConversation_ordered_or_empty_witness :
    ∃ l, getConversationMessages
        [⟨0, "c", "alice", "bob", "hi", "alice", 1⟩,
         ⟨1, "c", "bob", "alice", "yo", "bob", 2⟩] "c" false = .response 200 (some l) ∧
      l.Pairwise (fun m1 m2 => m1.timestamp ≤ m2.timestamp) ∧
      (∀ m ∈ l, m.conversationId = "c") ∧
      (∀ m ∈ [⟨0, "c", "alice", "bob", "hi", "alice", 1⟩,
              (⟨1, "c", "bob", "alice", "yo", "bob", 2⟩ : Message)],
        m.conversationId = "c" → m ∈ l) ∧
      l.Sublist [⟨0, "c", "alice", "bob", "hi", "alice", 1⟩,
                 ⟨1, "c", "bob", "alice", "yo", "bob", 2⟩] ∧
      ((∀ m ∈ [⟨0, "c", "alice", "bob", "hi", "alice", 1⟩,
               (⟨1, "c", "bob", "alice", "yo", "bob", 2⟩ : Message)],
        m.conversationId ≠ "c") → l = []) :=
  listByConversation_ordered_or_empty
    [⟨0, "c", "alice", "bob", "hi", "alice", 1⟩,
     ⟨1, "c", "bob", "alice", "yo", "bob", 2⟩] "c" (by decide)

/-- GET /api/messages/list/:senderUsername (lines 89-114):
`Conversation.find({ participants: senderUsername })` selects the
conversations containing the user, and each is mapped to its conversationId
together with `participants.find(p => p !== senderUsername)` — the first
participant different from the user, `undefined` (here `none`) if there is
none. -/
def listConversationsFor (store : List Conversation) (senderUsername : String) :
    List (String × Option String) :=
  (store.filter (fun c => decide (senderUsername ∈ c.participants))).map
    (fun c => (c.conversationId, c.participants.find? (fun p => decide (p ≠ senderUsername))))

/-- Claim C9, counterexample: a degenerate self-conversation with participants
["u", "u"] (creatable through POST /api/conversations with sender = receiver)
is listed with NO counterpart (`undefined`) instead of the other entry "u" of
the participant pair. -/
theorem listConversationsFor_selfPair_noCounterpart :
    listConversationsFor [⟨["u", "u"], "X"⟩] "u" = [("X", none)] ∧
    listConversationsFor [⟨["u", "u"], "X"⟩] "u" ≠ [("X", some "u")] := by
  decide

/-- Claim C9, amended: for every user u the query lists one entry per stored
Conversation containing u and none for conversations not containing u; for a
conversation whose participant pair is [u, b] or [b, u] with b ≠ u the entry
carries u's counterpart b, while a degenerate conversation both of whose
participants equal u yields an entry with no counterpart (`undefined`). -/
theorem listConversationsFor_counterparts (store : List Conversation) (u : String) :
    (∀ e ∈ listConversationsFor store u,
      ∃ c ∈ store, u ∈ c.participants ∧ e.1 = c.conversationId) ∧
    (∀ c ∈ store, u ∈ c.participants →
      ∃ other, (c.conversationId, other) ∈ listConversationsFor store u) ∧
    (∀ c ∈ store, ∀ b, b ≠ u → (c.participants = [u, b] ∨ c.participants = [b, u]) →
      (c.conversationId, some b) ∈ listConversationsFor store u) ∧
    (∀ c ∈ store, c.participants = [u, u] →
      (c.conversationId, none) ∈ listConversationsFor store u) := by
  have hself : ∀ c : Conversation, c ∈ store → u ∈ c.participants →
      (c.conversationId, c.participants.find? (fun p => decide (p ≠ u))) ∈
        listConversationsFor store u := by
    intro c hc hu
    exact List.mem_map.mpr ⟨c, List.mem_filter.mpr ⟨hc, decide_eq_true hu⟩, rfl⟩
  refine ⟨?_, ?_, ?_, ?_⟩
  · intro e he
    rcases List.mem_map.mp he with ⟨c, hc, hce⟩
    exact ⟨c, (List.mem_filter.mp hc).1,
      of_decide_eq_true (List.mem_filter.mp hc).2, by rw [← hce]⟩
  · intro c hc hu
    exact ⟨c.participants.find? (fun p => decide (p ≠ u)), hself c hc hu⟩
  · intro c hc b hb hshape
    rcases hshape with h | h
    · have := hself c hc (by rw [h]; exact List.mem_cons_self u [b])
      rwa [h, show ([u, b].find? (fun p => decide (p ≠ u))) = some b by simp [hb]] at this
    · have := hself c hc (by rw [h]; exact List.mem_cons.mpr (Or.inr (List.mem_cons_self u [])))
      rwa [h, show ([b, u].find? (fun p => decide (p ≠ u))) = some b by simp [hb]] at this
  · intro c hc hshape
    have := hself c hc (by rw [hshape]; exact List.mem_cons_self u [u])
    rwa [hshape, show ([u, u].find? (fun p => decide (p ≠ u))) = none by simp] at this

end Chat
